import Mathlib

/-!
Shallow embedding of the Windows backend of the `filemutex` package
(`filemutex_windows.go`) and verification of its specification.

The raw Windows syscalls (`LockFileEx`, `UnlockFileEx`, `CreateFileW`,
`CloseHandle`) are the external boundary of the component; they are modelled
by an oracle (`SysOracle`) that determines the raw result of each call, and
every operation additionally records the exact syscall events it issues, so
that properties about the arguments passed to the OS (flags, byte range,
offsets) and about which syscalls are or are not issued can be stated.
-/

namespace Filemutex

/-- The `syscall.Overlapped` structure; `var ol syscall.Overlapped` in Go
yields the zero value of this structure. -/
structure Overlapped where
  internal : Nat
  internalHigh : Nat
  offset : Nat
  offsetHigh : Nat
  hEvent : Nat
deriving DecidableEq, Repr

/-- The zero value of `syscall.Overlapped`, as produced by a Go `var`
declaration. -/
def Overlapped.zero : Overlapped := ⟨0, 0, 0, 0, 0⟩

/-- Go `error` values that the component can produce or propagate.

`errno e` is a `syscall.Errno` carrying the numeric platform error code;
the Go type assertion `err.(syscall.Errno)` succeeds exactly on this
constructor. `other tag` stands for any error value that is not a
`syscall.Errno` (the type assertion fails on it).

Modelled from the spec: the sentinel value `AlreadyLocked` is declared in a
source file of this repository that is not under `src/` (only its use inside
`TryLock` is visible); the spec describes it as a distinguished outcome of
`try_lock()` that callers can branch on without inspecting error text, so it
is embedded as its own constructor, distinct from every `errno` and `other`
value. -/
inductive GoError where
  | errno (e : Nat) : GoError
  | alreadyLocked : GoError
  | other (tag : Nat) : GoError
deriving DecidableEq, Repr

/-- `syscall.EINVAL`: Go's Windows syscall package defines the Unix-style
errno constants with their Linux numeric values, so `EINVAL` is
`Errno(0x16)` = 22. -/
def EINVAL : GoError := GoError.errno 22

/-- A syscall issued by the component, with the exact arguments passed.
`readFile` and `writeFile` are included so that "the component never reads
or writes the file's contents" is a statement about a type that could
express such events; the embedded code never emits them. -/
inductive SysEvent where
  | lockFileExCall (h flags reserved locklow lockhigh : Nat) (ol : Overlapped) : SysEvent
  | unlockFileExCall (h reserved locklow lockhigh : Nat) (ol : Overlapped) : SysEvent
  | createFileCall (filename : String) (access sharemode createmode attrs : Nat) : SysEvent
  | closeHandle (h : Nat) : SysEvent
  | readFile (h : Nat) : SysEvent
  | writeFile (h : Nat) : SysEvent
deriving DecidableEq, Repr

/-- The oracle giving the raw outcome of each syscall at the external
boundary.

`lockRes`/`unlockRes` return the pair `(r1, e1)` produced by
`syscall.Syscall6`: `r1` is the raw return value (0 means the Windows API
call failed) and `e1` the accompanying errno (0 when none was reported).
`createRes` returns the opened handle or the Go error from
`syscall.CreateFile`; `closeRes` the result of `syscall.Close`. -/
structure SysOracle where
  lockRes : Nat → Nat → Nat → Nat → Nat → Overlapped → Nat × Nat
  unlockRes : Nat → Nat → Nat → Nat → Overlapped → Nat × Nat
  createRes : String → Nat → Nat → Nat → Nat → Except GoError Nat
  closeRes : Nat → Option GoError

/-- `lockfileFailImmediately = 1` (`LOCKFILE_FAIL_IMMEDIATELY`). -/
def lockfileFailImmediately : Nat := 1

/-- `lockfileExclusiveLock = 2` (`LOCKFILE_EXCLUSIVE_LOCK`). -/
def lockfileExclusiveLock : Nat := 2

/-- `syscall.GENERIC_READ`. -/
def GENERIC_READ : Nat := 0x80000000

/-- `syscall.GENERIC_WRITE`. -/
def GENERIC_WRITE : Nat := 0x40000000

/-- `syscall.FILE_SHARE_READ`. -/
def FILE_SHARE_READ : Nat := 1

/-- `syscall.FILE_SHARE_WRITE`. -/
def FILE_SHARE_WRITE : Nat := 2

/-- `syscall.OPEN_ALWAYS`. -/
def OPEN_ALWAYS : Nat := 4

/-- `syscall.FILE_ATTRIBUTE_NORMAL`. -/
def FILE_ATTRIBUTE_NORMAL : Nat := 0x80

/-- The wrapper `lockFileEx` from `filemutex_windows.go`: issues the
`LockFileEx` syscall and, when the raw return value `r1` is 0, returns the
reported errno as the error, or `syscall.EINVAL` when the errno is 0;
otherwise the error is `nil` (`none`). The second component is the list of
syscall events issued (always the single `LockFileEx` call). -/
def lockFileEx (os : SysOracle) (h flags reserved locklow lockhigh : Nat)
    (ol : Overlapped) : Option GoError × List SysEvent :=
  let r := os.lockRes h flags reserved locklow lockhigh ol
  (if r.1 = 0 then
     (if r.2 ≠ 0 then some (GoError.errno r.2) else some EINVAL)
   else none,
   [SysEvent.lockFileExCall h flags reserved locklow lockhigh ol])

/-- The wrapper `unlockFileEx` from `filemutex_windows.go`: issues the
`UnlockFileEx` syscall with the same failure translation as `lockFileEx`. -/
def unlockFileEx (os : SysOracle) (h reserved locklow lockhigh : Nat)
    (ol : Overlapped) : Option GoError × List SysEvent :=
  let r := os.unlockRes h reserved locklow lockhigh ol
  (if r.1 = 0 then
     (if r.2 ≠ 0 then some (GoError.errno r.2) else some EINVAL)
   else none,
   [SysEvent.unlockFileExCall h reserved locklow lockhigh ol])

/-- The `FileMutex` structure of `filemutex_windows.go`: its only field is
the handle `fd` obtained at construction. -/
structure FileMutex where
  fd : Nat
deriving DecidableEq, Repr

/-- `New(filename)`: opens the file with
`GENERIC_READ|GENERIC_WRITE` access, `FILE_SHARE_READ|FILE_SHARE_WRITE`
sharing, `OPEN_ALWAYS` disposition and `FILE_ATTRIBUTE_NORMAL` attributes,
returning the error unchanged if `CreateFile` fails, otherwise a
`FileMutex` holding the opened handle. -/
def New (os : SysOracle) (filename : String) :
    Except GoError FileMutex × List SysEvent :=
  let access := GENERIC_READ ||| GENERIC_WRITE
  let share := FILE_SHARE_READ ||| FILE_SHARE_WRITE
  let ev := SysEvent.createFileCall filename access share OPEN_ALWAYS FILE_ATTRIBUTE_NORMAL
  match os.createRes filename access share OPEN_ALWAYS FILE_ATTRIBUTE_NORMAL with
  | Except.error e => (Except.error e, [ev])
  | Except.ok fd => (Except.ok ⟨fd⟩, [ev])

/-- `NewWithPermission(filename, perm)`: the body is
`//TODO: handle permission on windows` followed by `return New(filename)`,
so the permission argument is ignored. -/
def NewWithPermission (os : SysOracle) (filename : String) (_perm : Nat) :
    Except GoError FileMutex × List SysEvent :=
  New os filename

/-- `(*FileMutex).TryLock`: calls `lockFileEx` with
`lockfileFailImmediately|lockfileExclusiveLock` on byte range (1, 0) at the
zero overlapped offset; a resulting `syscall.Errno` equal to `0x21`
(`ERROR_LOCK_VIOLATION`) is translated to `AlreadyLocked`, every other error
is returned unchanged. The middle component is the receiver after the call
(the body assigns to no field). -/
def FileMutex.TryLock (os : SysOracle) (m : FileMutex) :
    Option GoError × FileMutex × List SysEvent :=
  let ol := Overlapped.zero
  let r := lockFileEx os m.fd (lockfileFailImmediately ||| lockfileExclusiveLock) 0 1 0 ol
  match r.1 with
  | some err =>
    match err with
    | GoError.errno e =>
      if e = 0x21 then (some GoError.alreadyLocked, m, r.2) else (some (GoError.errno e), m, r.2)
    | e => (some e, m, r.2)
  | none => (none, m, r.2)

/-- `(*FileMutex).Lock`: calls `lockFileEx` with `lockfileExclusiveLock`
(blocking) on byte range (1, 0) at the zero overlapped offset and returns
its error unchanged. -/
def FileMutex.Lock (os : SysOracle) (m : FileMutex) :
    Option GoError × FileMutex × List SysEvent :=
  let r := lockFileEx os m.fd lockfileExclusiveLock 0 1 0 Overlapped.zero
  (r.1, m, r.2)

/-- `(*FileMutex).Unlock`: calls `unlockFileEx` on byte range (1, 0) at the
zero overlapped offset and returns its error unchanged. -/
def FileMutex.Unlock (os : SysOracle) (m : FileMutex) :
    Option GoError × FileMutex × List SysEvent :=
  let r := unlockFileEx os m.fd 0 1 0 Overlapped.zero
  (r.1, m, r.2)

/-- `(*FileMutex).RLock`: calls `lockFileEx` with flags 0 (blocking,
shared) on byte range (1, 0) at the zero overlapped offset and returns its
error unchanged. -/
def FileMutex.RLock (os : SysOracle) (m : FileMutex) :
    Option GoError × FileMutex × List SysEvent :=
  let r := lockFileEx os m.fd 0 0 1 0 Overlapped.zero
  (r.1, m, r.2)

/-- `(*FileMutex).RUnlock`: calls `unlockFileEx` on byte range (1, 0) at
the zero overlapped offset and returns its error unchanged. -/
def FileMutex.RUnlock (os : SysOracle) (m : FileMutex) :
    Option GoError × FileMutex × List SysEvent :=
  let r := unlockFileEx os m.fd 0 1 0 Overlapped.zero
  (r.1, m, r.2)

/-- `(*FileMutex).Close`: calls `unlockFileEx` on byte range (1, 0); if
that reports an error the error is returned at once (and no further
syscall is issued); otherwise `syscall.Close(m.fd)` is issued and its
result returned. -/
def FileMutex.Close (os : SysOracle) (m : FileMutex) :
    Option GoError × FileMutex × List SysEvent :=
  let r := unlockFileEx os m.fd 0 1 0 Overlapped.zero
  match r.1 with
  | some err => (some err, m, r.2)
  | none => (os.closeRes m.fd, m, r.2 ++ [SysEvent.closeHandle m.fd])

/-- Decides whether a syscall event respects the sentinel-region discipline
of the spec: every `LockFileEx`/`UnlockFileEx` call covers exactly the
one-byte range (`locklow = 1`, `lockhigh = 0`) at the zero overlapped
offset, and no event reads or writes file contents. Opening and closing
the handle are unrelated to the region. -/
def sentinelOnly : SysEvent → Bool
  | SysEvent.lockFileExCall _ _ _ locklow lockhigh ol =>
    locklow = 1 && lockhigh = 0 && ol.offset = 0 && ol.offsetHigh = 0
  | SysEvent.unlockFileExCall _ _ locklow lockhigh ol =>
    locklow = 1 && lockhigh = 0 && ol.offset = 0 && ol.offsetHigh = 0
  | SysEvent.createFileCall _ _ _ _ _ => true
  | SysEvent.closeHandle _ => true
  | SysEvent.readFile _ => false
  | SysEvent.writeFile _ => false

/-- Decides whether a syscall event is a lock or unlock request (an
attempt to change the OS lock state). -/
def isLockSyscall : SysEvent → Bool
  | SysEvent.lockFileExCall _ _ _ _ _ _ => true
  | SysEvent.unlockFileExCall _ _ _ _ _ => true
  | _ => false

/-- The full error translation performed by `TryLock` on the result of its
single `lockFileEx` call: a `syscall.Errno` equal to `0x21` becomes
`AlreadyLocked`; every other value (including success) passes through
unchanged. -/
def tryLockTranslate : Option GoError → Option GoError
  | some (GoError.errno e) =>
    if e = 0x21 then some GoError.alreadyLocked else some (GoError.errno e)
  | o => o

/-- A concrete oracle on which every syscall succeeds: lock and unlock
return raw `(1, 0)`, opening any path yields handle 5, closing succeeds. -/
def okOS : SysOracle where
  lockRes := fun _ _ _ _ _ _ => (1, 0)
  unlockRes := fun _ _ _ _ _ => (1, 0)
  createRes := fun _ _ _ _ _ => Except.ok 5
  closeRes := fun _ => none

/-- A concrete oracle on which the lock is held elsewhere: every
`LockFileEx` call fails with raw result 0 and errno `0x21`
(`ERROR_LOCK_VIOLATION`); other syscalls succeed. -/
def heldOS : SysOracle where
  lockRes := fun _ _ _ _ _ _ => (0, 0x21)
  unlockRes := fun _ _ _ _ _ => (1, 0)
  createRes := fun _ _ _ _ _ => Except.ok 5
  closeRes := fun _ => none

/-- A concrete oracle on which every `UnlockFileEx` call fails with raw
result 0 and errno 5 (`ERROR_ACCESS_DENIED`); other syscalls succeed. -/
def badUnlockOS : SysOracle where
  lockRes := fun _ _ _ _ _ _ => (1, 0)
  unlockRes := fun _ _ _ _ _ => (0, 5)
  createRes := fun _ _ _ _ _ => Except.ok 5
  closeRes := fun _ => none

/-- A concrete oracle on which every syscall fails with raw result 0 and
errno 0 (no errno reported), and opening any path fails with errno 2
(`ERROR_FILE_NOT_FOUND`). -/
def silentFailOS : SysOracle where
  lockRes := fun _ _ _ _ _ _ => (0, 0)
  unlockRes := fun _ _ _ _ _ => (0, 0)
  createRes := fun _ _ _ _ _ => Except.error (GoError.errno 2)
  closeRes := fun _ => some (GoError.errno 6)

/-- A concrete oracle on which lock, unlock and open succeed, but closing
the handle fails with errno 6 (`ERROR_INVALID_HANDLE`). -/
def badCloseOS : SysOracle where
  lockRes := fun _ _ _ _ _ _ => (1, 0)
  unlockRes := fun _ _ _ _ _ => (1, 0)
  createRes := fun _ _ _ _ _ => Except.ok 5
  closeRes := fun _ => some (GoError.errno 6)

/-! Helper lemmas characterizing each operation, shared by the claim
theorems below. -/

theorem lockFileEx_trace (os : SysOracle) (h flags reserved ll lh : Nat) (ol : Overlapped) :
    (lockFileEx os h flags reserved ll lh ol).2 =
      [SysEvent.lockFileExCall h flags reserved ll lh ol] := rfl

theorem unlockFileEx_trace (os : SysOracle) (h reserved ll lh : Nat) (ol : Overlapped) :
    (unlockFileEx os h reserved ll lh ol).2 =
      [SysEvent.unlockFileExCall h reserved ll lh ol] := rfl

theorem tryLock_eq (os : SysOracle) (m : FileMutex) :
    FileMutex.TryLock os m =
      (tryLockTranslate (lockFileEx os m.fd
          (lockfileFailImmediately ||| lockfileExclusiveLock) 0 1 0 Overlapped.zero).1,
       m,
       [SysEvent.lockFileExCall m.fd
          (lockfileFailImmediately ||| lockfileExclusiveLock) 0 1 0 Overlapped.zero]) := by
  unfold FileMutex.TryLock tryLockTranslate
  rcases hr : (lockFileEx os m.fd
      (lockfileFailImmediately ||| lockfileExclusiveLock) 0 1 0 Overlapped.zero).1 with _ | e
  · simp [hr, lockFileEx_trace]
  · cases e <;> (simp [hr, lockFileEx_trace]; try (split <;> rfl))

theorem close_eq_error (os : SysOracle) (m : FileMutex) (e : GoError)
    (he : (unlockFileEx os m.fd 0 1 0 Overlapped.zero).1 = some e) :
    FileMutex.Close os m =
      (some e, m, [SysEvent.unlockFileExCall m.fd 0 1 0 Overlapped.zero]) := by
  unfold FileMutex.Close
  simp [he, unlockFileEx_trace]

theorem close_eq_ok (os : SysOracle) (m : FileMutex)
    (he : (unlockFileEx os m.fd 0 1 0 Overlapped.zero).1 = none) :
    FileMutex.Close os m =
      (os.closeRes m.fd, m,
       [SysEvent.unlockFileExCall m.fd 0 1 0 Overlapped.zero, SysEvent.closeHandle m.fd]) := by
  unfold FileMutex.Close
  simp [he, unlockFileEx_trace]

theorem fileMutex_fd_inj (m₁ m₂ : FileMutex) (h : m₁.fd = m₂.fd) : m₁ = m₂ := by
  cases m₁; cases m₂; simpa using h

/-- C1: the claim states that `Close` closes the underlying handle even when
the explicit unlock step reported an error. Refuted at a concrete input: on
the oracle `badUnlockOS` with handle 7, the unlock step fails with errno 5
and `Close` surfaces that error, yet no `CloseHandle` syscall is issued. -/
theorem C1_counterexample :
    (FileMutex.Close badUnlockOS ⟨7⟩).1 = some (GoError.errno 5) ∧
    SysEvent.closeHandle 7 ∉ (FileMutex.Close badUnlockOS ⟨7⟩).2.2 := by
  constructor
  · rfl
  · decide

/-- C1 (amended): `Close` performs a best-effort unlock whose error, when
one occurs, is surfaced as the result of `Close`; the underlying handle is
then closed exactly when the unlock step succeeded — on an unlock error the
error is returned and the handle is not closed by `Close`. When the unlock
succeeds, the result of `Close` is the result of closing the handle. -/
theorem C1_close_behavior (os : SysOracle) (m : FileMutex) :
    (FileMutex.Close os m).1 =
      ((unlockFileEx os m.fd 0 1 0 Overlapped.zero).1.elim (os.closeRes m.fd) some) ∧
    (SysEvent.closeHandle m.fd ∈ (FileMutex.Close os m).2.2 ↔
      (unlockFileEx os m.fd 0 1 0 Overlapped.zero).1 = none) := by
  rcases hu : (unlockFileEx os m.fd 0 1 0 Overlapped.zero).1 with _ | e
  · simp [close_eq_ok os m hu, hu]
  · simp [close_eq_error os m e hu, hu]

/-- C2: when the lock is held elsewhere (the `LockFileEx` syscall with the
fail-immediately flags reports raw failure with errno `0x21`,
`ERROR_LOCK_VIOLATION`), `TryLock` returns the distinguished `AlreadyLocked`
value, which is distinct as a value from every `syscall.Errno`-backed
generic I/O error; and the only syscall `TryLock` ever issues is the single
`LockFileEx` call carrying `lockfileFailImmediately`, so it never blocks. -/
theorem C2_tryLock_alreadyLocked (os : SysOracle) (m : FileMutex) :
    (FileMutex.TryLock os m).2.2 =
      [SysEvent.lockFileExCall m.fd
        (lockfileFailImmediately ||| lockfileExclusiveLock) 0 1 0 Overlapped.zero] ∧
    (os.lockRes m.fd (lockfileFailImmediately ||| lockfileExclusiveLock) 0 1 0
        Overlapped.zero = (0, 0x21) →
      (FileMutex.TryLock os m).1 = some GoError.alreadyLocked) ∧
    (∀ e : Nat, GoError.alreadyLocked ≠ GoError.errno e) := by
  refine ⟨by rw [tryLock_eq], ?_, fun e => by simp⟩
  intro hres
  rw [tryLock_eq]
  simp only [lockFileEx, hres]
  rfl

/-- C2 witness: on the concrete oracle `heldOS`, where the lock is held
elsewhere, `TryLock` returns `AlreadyLocked`. -/
theorem C2_witness :
    (FileMutex.TryLock heldOS ⟨5⟩).1 = some GoError.alreadyLocked :=
  (C2_tryLock_alreadyLocked heldOS ⟨5⟩).2.1 rfl

/-- C3: the claim states that the constructor stores, in addition to the
handle, the path used to create the `FileMutex`. Refuted: no function of the
returned `FileMutex` can recover the path, because on the oracle `okOS` the
constructor maps the two distinct paths "a" and "b" to the identical value
`⟨5⟩`. -/
theorem C3_counterexample :
    ¬ ∃ recover : FileMutex → String,
        ∀ (os : SysOracle) (fn : String) (m : FileMutex),
          (New os fn).1 = Except.ok m → recover m = fn := by
  rintro ⟨recover, h⟩
  have ha : recover ⟨5⟩ = "a" := h okOS "a" ⟨5⟩ rfl
  have hb : recover ⟨5⟩ = "b" := h okOS "b" ⟨5⟩ rfl
  rw [ha] at hb
  exact absurd hb (by decide)

/-- C3 (amended): the `FileMutex` returned by the constructor stores only
the open handle obtained from the `CreateFile` call; the path is not
retained (two `FileMutex` values agreeing on the handle are equal, so no
further field exists). -/
theorem C3_fd_only (os : SysOracle) (fn : String) :
    (New os fn).1 =
      Except.map (fun fd => FileMutex.mk fd)
        (os.createRes fn (GENERIC_READ ||| GENERIC_WRITE)
          (FILE_SHARE_READ ||| FILE_SHARE_WRITE) OPEN_ALWAYS FILE_ATTRIBUTE_NORMAL) ∧
    ∀ m₁ m₂ : FileMutex, m₁.fd = m₂.fd → m₁ = m₂ := by
  constructor
  · unfold New
    rcases hc : os.createRes fn (GENERIC_READ ||| GENERIC_WRITE)
        (FILE_SHARE_READ ||| FILE_SHARE_WRITE) OPEN_ALWAYS FILE_ATTRIBUTE_NORMAL with e | fd
    · simp [hc, Except.map]
    · simp [hc, Except.map]
  · exact fileMutex_fd_inj

/-- C3 witness: the amended theorem applied at the oracle `okOS`, the path
"a" and two concrete equal-handle mutexes. -/
theorem C3_witness : (⟨5⟩ : FileMutex) = ⟨5⟩ :=
  (C3_fd_only okOS "a").2 ⟨5⟩ ⟨5⟩ rfl

/-- C4: `NewWithPermission` ignores its permission argument and behaves
identically to `New` for every oracle, filename and permission mode. -/
theorem C4_newWithPermission_eq_new (os : SysOracle) (fn : String) (perm : Nat) :
    NewWithPermission os fn perm = New os fn := rfl

/-- C5: `Unlock` and `RUnlock` have identical behavior: both issue the same
`UnlockFileEx` request on the same handle and byte range, with the same
result, receiver and syscall trace. -/
theorem C5_unlock_eq_runlock (os : SysOracle) (m : FileMutex) :
    FileMutex.Unlock os m = FileMutex.RUnlock os m := rfl

/-- C6: every acquire and release operation issues only syscalls that
respect the sentinel-region discipline: each lock or unlock request covers
exactly the one-byte range (`locklow = 1`, `lockhigh = 0`) at the zero
overlapped offset, and no operation issues a read or a write of the file's
contents. -/
theorem C6_sentinel_region (os : SysOracle) (m : FileMutex) :
    (FileMutex.Lock os m).2.2.all sentinelOnly = true ∧
    (FileMutex.TryLock os m).2.2.all sentinelOnly = true ∧
    (FileMutex.RLock os m).2.2.all sentinelOnly = true ∧
    (FileMutex.Unlock os m).2.2.all sentinelOnly = true ∧
    (FileMutex.RUnlock os m).2.2.all sentinelOnly = true ∧
    (FileMutex.Close os m).2.2.all sentinelOnly = true := by
  refine ⟨rfl, ?_, rfl, rfl, rfl, ?_⟩
  · rw [tryLock_eq]
    rfl
  · rcases hu : (unlockFileEx os m.fd 0 1 0 Overlapped.zero).1 with _ | e
    · rw [close_eq_ok os m hu]
      rfl
    · rw [close_eq_error os m e hu]
      rfl

/-- C7: no lock or unlock operation changes any in-memory field of the
`FileMutex`: each returns its receiver unchanged (in particular the stored
handle), and since two `FileMutex` values agreeing on the handle are equal,
there is no in-memory field in which an "am I locked" state could be
cached. -/
theorem C7_no_inmemory_change (os : SysOracle) (m : FileMutex) :
    (FileMutex.Lock os m).2.1 = m ∧
    (FileMutex.TryLock os m).2.1 = m ∧
    (FileMutex.RLock os m).2.1 = m ∧
    (FileMutex.Unlock os m).2.1 = m ∧
    (FileMutex.RUnlock os m).2.1 = m ∧
    (FileMutex.Close os m).2.1 = m ∧
    ∀ m₁ m₂ : FileMutex, m₁.fd = m₂.fd → m₁ = m₂ := by
  refine ⟨rfl, by rw [tryLock_eq], rfl, rfl, rfl, ?_, fileMutex_fd_inj⟩
  rcases hu : (unlockFileEx os m.fd 0 1 0 Overlapped.zero).1 with _ | e
  · rw [close_eq_ok os m hu]
  · rw [close_eq_error os m e hu]

/-- C7 witness: at the oracle `okOS` and handle 4, `Lock` leaves the
receiver unchanged, and equal-handle mutexes are equal. -/
theorem C7_witness :
    (FileMutex.Lock okOS ⟨4⟩).2.1 = (⟨4⟩ : FileMutex) ∧
    (⟨4⟩ : FileMutex) = ⟨4⟩ :=
  ⟨(C7_no_inmemory_change okOS ⟨4⟩).1,
   (C7_no_inmemory_change okOS ⟨4⟩).2.2.2.2.2.2 ⟨4⟩ ⟨4⟩ rfl⟩

/-- C8: `New` issues exactly one `CreateFile` call with read/write access,
`FILE_SHARE_READ|FILE_SHARE_WRITE` sharing (so other processes can open the
same path concurrently) and `OPEN_ALWAYS` disposition (creating the file if
absent); it returns the underlying OS error — and no `FileMutex` — exactly
when that call fails, and a `FileMutex` holding the opened handle exactly
when it succeeds. -/
theorem C8_new_open_semantics (os : SysOracle) (fn : String) :
    (New os fn).2 =
      [SysEvent.createFileCall fn (GENERIC_READ ||| GENERIC_WRITE)
        (FILE_SHARE_READ ||| FILE_SHARE_WRITE) OPEN_ALWAYS FILE_ATTRIBUTE_NORMAL] ∧
    (∀ e, os.createRes fn (GENERIC_READ ||| GENERIC_WRITE)
        (FILE_SHARE_READ ||| FILE_SHARE_WRITE) OPEN_ALWAYS FILE_ATTRIBUTE_NORMAL =
          Except.error e → (New os fn).1 = Except.error e) ∧
    (∀ fd, os.createRes fn (GENERIC_READ ||| GENERIC_WRITE)
        (FILE_SHARE_READ ||| FILE_SHARE_WRITE) OPEN_ALWAYS FILE_ATTRIBUTE_NORMAL =
          Except.ok fd → (New os fn).1 = Except.ok ⟨fd⟩) := by
  refine ⟨?_, ?_, ?_⟩
  · unfold New
    rcases hc : os.createRes fn (GENERIC_READ ||| GENERIC_WRITE)
        (FILE_SHARE_READ ||| FILE_SHARE_WRITE) OPEN_ALWAYS FILE_ATTRIBUTE_NORMAL with e | fd <;>
      simp [hc]
  · intro e he
    unfold New
    simp [he]
  · intro fd hfd
    unfold New
    simp [hfd]

/-- C8 witness: on `silentFailOS` the open fails with errno 2 and `New`
returns exactly that error; on `okOS` it succeeds with handle 5 and `New`
returns the mutex holding that handle. -/
theorem C8_witness :
    (New silentFailOS "x").1 = Except.error (GoError.errno 2) ∧
    (New okOS "x").1 = Except.ok ⟨5⟩ :=
  ⟨(C8_new_open_semantics silentFailOS "x").2.1 (GoError.errno 2) rfl,
   (C8_new_open_semantics okOS "x").2.2 5 rfl⟩

/-- C9: no operation retries or recovers locally: each acquire/release
operation issues exactly one lock/unlock syscall (and `New` exactly one
syscall), and the single syscall's outcome is returned synchronously and
unchanged to the caller — except that `TryLock` applies the sole
translation `tryLockTranslate`, which maps only the errno `0x21` to
`AlreadyLocked` and leaves every other error value unchanged. A `Close`
whose unlock step fails returns that failure at once; a `Close` whose
unlock step succeeds returns the `CloseHandle` result unchanged; and `New`
returns the `CreateFile` outcome unchanged in both directions. -/
theorem C9_no_retry_no_recovery (os : SysOracle) (m : FileMutex) (fn : String) :
    (FileMutex.Lock os m).1 =
      (lockFileEx os m.fd lockfileExclusiveLock 0 1 0 Overlapped.zero).1 ∧
    (FileMutex.RLock os m).1 = (lockFileEx os m.fd 0 0 1 0 Overlapped.zero).1 ∧
    (FileMutex.Unlock os m).1 = (unlockFileEx os m.fd 0 1 0 Overlapped.zero).1 ∧
    (FileMutex.RUnlock os m).1 = (unlockFileEx os m.fd 0 1 0 Overlapped.zero).1 ∧
    (FileMutex.TryLock os m).1 =
      tryLockTranslate (lockFileEx os m.fd
        (lockfileFailImmediately ||| lockfileExclusiveLock) 0 1 0 Overlapped.zero).1 ∧
    (∀ e, (unlockFileEx os m.fd 0 1 0 Overlapped.zero).1 = some e →
      (FileMutex.Close os m).1 = some e) ∧
    (∀ e, e ≠ 0x21 →
      tryLockTranslate (some (GoError.errno e)) = some (GoError.errno e)) ∧
    (∀ t, tryLockTranslate (some (GoError.other t)) = some (GoError.other t)) ∧
    tryLockTranslate none = none ∧
    List.countP isLockSyscall (FileMutex.Lock os m).2.2 = 1 ∧
    List.countP isLockSyscall (FileMutex.TryLock os m).2.2 = 1 ∧
    List.countP isLockSyscall (FileMutex.RLock os m).2.2 = 1 ∧
    List.countP isLockSyscall (FileMutex.Unlock os m).2.2 = 1 ∧
    List.countP isLockSyscall (FileMutex.RUnlock os m).2.2 = 1 ∧
    List.countP isLockSyscall (FileMutex.Close os m).2.2 = 1 ∧
    (New os fn).2.length = 1 ∧
    (∀ e, os.createRes fn (GENERIC_READ ||| GENERIC_WRITE)
        (FILE_SHARE_READ ||| FILE_SHARE_WRITE) OPEN_ALWAYS FILE_ATTRIBUTE_NORMAL =
          Except.error e → (New os fn).1 = Except.error e) ∧
    (∀ fd, os.createRes fn (GENERIC_READ ||| GENERIC_WRITE)
        (FILE_SHARE_READ ||| FILE_SHARE_WRITE) OPEN_ALWAYS FILE_ATTRIBUTE_NORMAL =
          Except.ok fd → (New os fn).1 = Except.ok ⟨fd⟩) ∧
    ((unlockFileEx os m.fd 0 1 0 Overlapped.zero).1 = none →
      (FileMutex.Close os m).1 = os.closeRes m.fd) := by
  refine ⟨rfl, rfl, rfl, rfl, by rw [tryLock_eq], ?_, ?_, fun t => rfl, rfl,
    rfl, by rw [tryLock_eq]; rfl, rfl, rfl, rfl, ?_, ?_, ?_, ?_, ?_⟩
  · intro e he
    rw [close_eq_error os m e he]
  · intro e he
    simp [tryLockTranslate, he]
  · rcases hu : (unlockFileEx os m.fd 0 1 0 Overlapped.zero).1 with _ | e
    · rw [close_eq_ok os m hu]
      rfl
    · rw [close_eq_error os m e hu]
      rfl
  · unfold New
    rcases hc : os.createRes fn (GENERIC_READ ||| GENERIC_WRITE)
        (FILE_SHARE_READ ||| FILE_SHARE_WRITE) OPEN_ALWAYS FILE_ATTRIBUTE_NORMAL with e | fd <;>
      simp [hc]
  · intro e he
    unfold New
    simp [he]
  · intro fd hfd
    unfold New
    simp [hfd]
  · intro hu
    rw [close_eq_ok os m hu]

/-- C9 witness: on the oracle `badUnlockOS` with handle 7 the unlock step of
`Close` fails with errno 5 and `Close` returns exactly that error; the
errno 6, different from `0x21`, passes through the `TryLock` translation
unchanged; on `silentFailOS` the open fails with errno 2 and `New` returns
exactly that error; on `badCloseOS` the unlock step of `Close` succeeds and
`Close` returns exactly the `CloseHandle` failure (errno 6). -/
theorem C9_witness :
    (FileMutex.Close badUnlockOS ⟨7⟩).1 = some (GoError.errno 5) ∧
    tryLockTranslate (some (GoError.errno 6)) = some (GoError.errno 6) ∧
    (New silentFailOS "y").1 = Except.error (GoError.errno 2) ∧
    (FileMutex.Close badCloseOS ⟨7⟩).1 = some (GoError.errno 6) := by
  obtain ⟨-, -, -, -, -, hclose, htr, -⟩ :=
    C9_no_retry_no_recovery badUnlockOS ⟨7⟩ "x"
  obtain ⟨-, -, -, -, -, -, -, -, -, -, -, -, -, -, -, -, hnew, -, -⟩ :=
    C9_no_retry_no_recovery silentFailOS ⟨7⟩ "y"
  obtain ⟨-, -, -, -, -, -, -, -, -, -, -, -, -, -, -, -, -, -, hcl⟩ :=
    C9_no_retry_no_recovery badCloseOS ⟨7⟩ "x"
  exact ⟨hclose (GoError.errno 5) rfl, htr 6 (by decide),
    hnew (GoError.errno 2) rfl, hcl rfl⟩

/-- C10: whenever the raw syscall underlying `lockFileEx` or `unlockFileEx`
reports failure (raw return value 0), the wrapper returns a non-nil error:
the reported errno when it is nonzero, and `syscall.EINVAL` when the errno
is zero — so a failed locking syscall is never observed as success. -/
theorem C10_wrapper_never_silent (os : SysOracle) (h flags reserved ll lh : Nat)
    (ol : Overlapped) :
    ((os.lockRes h flags reserved ll lh ol).1 = 0 →
      (lockFileEx os h flags reserved ll lh ol).1 =
        some (if (os.lockRes h flags reserved ll lh ol).2 = 0 then EINVAL
          else GoError.errno (os.lockRes h flags reserved ll lh ol).2)) ∧
    ((os.unlockRes h reserved ll lh ol).1 = 0 →
      (unlockFileEx os h reserved ll lh ol).1 =
        some (if (os.unlockRes h reserved ll lh ol).2 = 0 then EINVAL
          else GoError.errno (os.unlockRes h reserved ll lh ol).2)) := by
  constructor
  · intro h0
    by_cases h2 : (os.lockRes h flags reserved ll lh ol).2 = 0 <;>
      simp [lockFileEx, h0, h2]
  · intro h0
    by_cases h2 : (os.unlockRes h reserved ll lh ol).2 = 0 <;>
      simp [unlockFileEx, h0, h2]

/-- C10 witness: on `silentFailOS`, whose raw syscalls fail with raw result
0 and errno 0, both wrappers return `syscall.EINVAL` rather than success. -/
theorem C10_witness :
    (lockFileEx silentFailOS 7 3 0 1 0 Overlapped.zero).1 = some EINVAL ∧
    (unlockFileEx silentFailOS 7 0 1 0 Overlapped.zero).1 = some EINVAL := by
  have hc := C10_wrapper_never_silent silentFailOS 7 3 0 1 0 Overlapped.zero
  exact ⟨by simpa using hc.1 rfl, by simpa using hc.2 rfl⟩

end Filemutex
